import Mathlib

/-!
Shallow embedding of the simulation loop of `src/src/components/Game.tsx`
from the 2d-simple-runner project.

Positions, velocities and timestamps are modelled as rationals (the source
uses JavaScript numbers and never leaves the rationals on the operations
involved); the score is an integer (it starts at 0 and is only ever
incremented by `Math.floor` results).  The three `Math.random()` draws a
frame can make (spawn threshold roll, obstacle width roll, obstacle height
roll) are passed to the frame step as explicit parameters, each understood
to range over `[0, 1)`.

The React component keeps `gameOver`, `player`, `obstacles`, `isJumping`
and `score` as state cells, and `lastTimestamp` / `obstacleSpawnTimer` as
locals of the effect that hosts `gameLoop`; the effect returns early (no
frame runs) while `gameOver` is true, and re-initializes its locals to 0
whenever it is remounted, in particular when `resetGame` flips `gameOver`
back to false.  `GameState` below aggregates all seven values, and the
frame step is a function on this aggregate.  Inside one frame, `gameLoop`
reads the captured (start-of-frame) `player` and `obstacles` for the
collision check and the spawn-spacing check, while the committed updates
(spawn append, advance/filter, physics) act on the queued state; the step
function reproduces exactly that ordering.
-/

namespace Runner

/-- Constant `GRAVITY = 0.5` of Game.tsx. -/
def GRAVITY : ℚ := 1/2

/-- Constant `JUMP_FORCE = -12` of Game.tsx. -/
def JUMP_FORCE : ℚ := -12

/-- Constant `GROUND_HEIGHT = 400` of Game.tsx. -/
def GROUND_HEIGHT : ℚ := 400

/-- Constant `OBSTACLE_SPEED = 5` of Game.tsx. -/
def OBSTACLE_SPEED : ℚ := 5

/-- Constant `MIN_OBSTACLE_SPACING = 500` of Game.tsx. -/
def MIN_OBSTACLE_SPACING : ℚ := 500

/-- Constant `MAX_OBSTACLE_SPACING = 800` of Game.tsx. -/
def MAX_OBSTACLE_SPACING : ℚ := 800

/-- Constant `MIN_DISTANCE_BETWEEN_OBSTACLES = 400` of Game.tsx. -/
def MIN_DISTANCE_BETWEEN_OBSTACLES : ℚ := 400

/-- The drawing surface width: the canvas element is mounted with `width={800}`. -/
def canvasWidth : ℚ := 800

/-- The `GameObject` interface of Game.tsx (used only for the player). -/
structure Player where
  x : ℚ
  y : ℚ
  width : ℚ
  height : ℚ
  velocityY : ℚ
deriving DecidableEq, Repr

/-- The `Obstacle` interface of Game.tsx. -/
structure Obstacle where
  x : ℚ
  width : ℚ
  height : ℚ
deriving DecidableEq, Repr

/-- The full session state: the five React state cells plus the two
effect-local accumulators of the frame loop. -/
structure GameState where
  gameOver : Bool
  player : Player
  obstacles : List Obstacle
  isJumping : Bool
  score : ℤ
  lastTimestamp : ℚ
  obstacleSpawnTimer : ℚ
deriving DecidableEq, Repr

/-- The initial player of Game.tsx: `{x: 50, y: GROUND_HEIGHT - 40, width: 40,
height: 40, velocityY: 0}`. -/
def initialPlayer : Player :=
  { x := 50, y := GROUND_HEIGHT - 40, width := 40, height := 40, velocityY := 0 }

/-- The initial session state: the `useState` initializers, together with the
effect locals `lastTimestamp = 0` and `obstacleSpawnTimer = 0` set when the
loop effect first mounts. -/
def initialState : GameState :=
  { gameOver := false, player := initialPlayer, obstacles := [], isJumping := false,
    score := 0, lastTimestamp := 0, obstacleSpawnTimer := 0 }

/-- `resetGame` of Game.tsx: sets `gameOver` false, the player back to its
initial record, obstacles to `[]`, score to 0, `isJumping` false.  Flipping
`gameOver` to false remounts the loop effect, which re-initializes its locals
`lastTimestamp` and `obstacleSpawnTimer` to 0, so the aggregate result is the
initial state. -/
def resetGame (_s : GameState) : GameState := initialState

/-- `handleKeyDown` of Game.tsx, as a function of the keydown event's `code`
string: while the session is over, `Space` restarts (and returns); otherwise
`Space` or `ArrowUp` while not jumping and not over applies the jump impulse. -/
def handleKeyDown (code : String) (s : GameState) : GameState :=
  if s.gameOver ∧ code = "Space" then resetGame s
  else if (code = "Space" ∨ code = "ArrowUp") ∧ ¬s.isJumping ∧ ¬s.gameOver then
    { s with player := { s.player with velocityY := JUMP_FORCE }, isJumping := true }
  else s

/-- `createObstacle` of Game.tsx: `width = 30 + random()*20`,
`height = 50 + random()*50`, spawned at `x = canvas.width`.  The two random
draws are the parameters `rW, rH ∈ [0,1)`. -/
def createObstacle (rW rH : ℚ) : Obstacle :=
  { x := canvasWidth, width := 30 + rW * 20, height := 50 + rH * 50 }

/-- `canSpawnObstacle` of Game.tsx: true when the sequence is empty, else when
the last-appended obstacle's `x` is below `canvas.width -
MIN_DISTANCE_BETWEEN_OBSTACLES`.  It reads the start-of-frame `obstacles`. -/
def canSpawnObstacle (obstacles : List Obstacle) : Bool :=
  match obstacles.getLast? with
  | none => true
  | some lastObstacle => decide (lastObstacle.x < canvasWidth - MIN_DISTANCE_BETWEEN_OBSTACLES)

/-- `checkCollision` of Game.tsx: the axis-aligned overlap test
`player.x < obstacle.x + obstacle.width && player.x + player.width > obstacle.x
&& player.y + player.height > GROUND_HEIGHT - obstacle.height`. -/
def checkCollision (player : Player) (obstacle : Obstacle) : Bool :=
  decide (player.x < obstacle.x + obstacle.width) &&
  decide (player.x + player.width > obstacle.x) &&
  decide (player.y + player.height > GROUND_HEIGHT - obstacle.height)

/-- One obstacle advance of the frame step: `x -= OBSTACLE_SPEED`. -/
def moveObstacle (o : Obstacle) : Obstacle :=
  { o with x := o.x - OBSTACLE_SPEED }

/-- The culling predicate of the frame step: keep `obstacle.x + obstacle.width > 0`. -/
def obstacleAlive (o : Obstacle) : Bool :=
  decide (o.x + o.width > 0)

/-- The threshold the spawn timer is compared against, freshly rolled on every
frame: `MIN_OBSTACLE_SPACING + random() * (MAX_OBSTACLE_SPACING -
MIN_OBSTACLE_SPACING)` with the draw `rT ∈ [0,1)`. -/
def spawnThreshold (rT : ℚ) : ℚ :=
  MIN_OBSTACLE_SPACING + rT * (MAX_OBSTACLE_SPACING - MIN_OBSTACLE_SPACING)

/-- The obstacle list after the spawn decision of a frame: if the accumulated
timer exceeds the threshold and `canSpawnObstacle` permits, append a fresh
obstacle; otherwise leave the list alone. -/
def spawnObstacles (obstacles : List Obstacle) (timer thr rW rH : ℚ) : List Obstacle :=
  if timer > thr ∧ canSpawnObstacle obstacles then
    obstacles ++ [createObstacle rW rH]
  else obstacles

/-- The spawn timer after the spawn decision of a frame: reset to 0 exactly when
an obstacle was appended, otherwise keep the accumulated value (the source only
executes `obstacleSpawnTimer = 0` inside the `canSpawnObstacle()` branch). -/
def spawnTimerAfter (obstacles : List Obstacle) (timer thr : ℚ) : ℚ :=
  if timer > thr ∧ canSpawnObstacle obstacles then 0 else timer

/-- The player physics of the frame step (the `setPlayer` updater together with
the `setIsJumping(false)` it issues on ground contact): `newY = y + velocityY`,
`newVelocityY = velocityY + GRAVITY`; if `newY >= GROUND_HEIGHT - height` clamp
to the ground, zero the velocity and clear the jumping flag, else commit `newY`
and `newVelocityY`. -/
def stepPlayer (p : Player) (isJumping : Bool) : Player × Bool :=
  let newY := p.y + p.velocityY
  let newVelocityY := p.velocityY + GRAVITY
  if newY ≥ GROUND_HEIGHT - p.height then
    ({ p with y := GROUND_HEIGHT - p.height, velocityY := 0 }, false)
  else
    ({ p with y := newY, velocityY := newVelocityY }, isJumping)

/-- One execution of `gameLoop` of Game.tsx on the aggregate state.  The
hosting effect returns before scheduling any frame while `gameOver` is true, so
the step is the identity there.  Otherwise: `deltaTime = timestamp -
lastTimestamp`; the spawn timer accumulates `deltaTime`; the spawn decision
runs against the start-of-frame obstacles; all obstacles (a freshly appended
one included) advance by `OBSTACLE_SPEED` and are filtered by
`obstacleAlive`; the player integrates one physics step; the collision check
runs over the start-of-frame `player` and `obstacles`; the score increments by
`Math.floor(deltaTime / 100)` when `deltaTime` is nonzero (the source guards
with JavaScript truthiness, `if (deltaTime)`). -/
def gameLoopStep (s : GameState) (ts rT rW rH : ℚ) : GameState :=
  if s.gameOver then s else
    let deltaTime := ts - s.lastTimestamp
    let timer := s.obstacleSpawnTimer + deltaTime
    let thr := spawnThreshold rT
    { gameOver := s.obstacles.any (fun o => checkCollision s.player o),
      player := (stepPlayer s.player s.isJumping).1,
      obstacles := ((spawnObstacles s.obstacles timer thr rW rH).map moveObstacle).filter
        (fun o => obstacleAlive o),
      isJumping := (stepPlayer s.player s.isJumping).2,
      score := if deltaTime = 0 then s.score else s.score + ⌊deltaTime / 100⌋,
      lastTimestamp := ts,
      obstacleSpawnTimer := spawnTimerAfter s.obstacles timer thr }

/-- Unfolding of `gameLoopStep` on a running session. -/
lemma gameLoopStep_run (s : GameState) (ts rT rW rH : ℚ) (h : s.gameOver = false) :
    gameLoopStep s ts rT rW rH =
      { gameOver := s.obstacles.any (fun o => checkCollision s.player o),
        player := (stepPlayer s.player s.isJumping).1,
        obstacles := ((spawnObstacles s.obstacles (s.obstacleSpawnTimer + (ts - s.lastTimestamp))
          (spawnThreshold rT) rW rH).map moveObstacle).filter (fun o => obstacleAlive o),
        isJumping := (stepPlayer s.player s.isJumping).2,
        score := if ts - s.lastTimestamp = 0 then s.score
          else s.score + ⌊(ts - s.lastTimestamp) / 100⌋,
        lastTimestamp := ts,
        obstacleSpawnTimer := spawnTimerAfter s.obstacles
          (s.obstacleSpawnTimer + (ts - s.lastTimestamp)) (spawnThreshold rT) } := by
  rw [gameLoopStep, if_neg (by simp [h])]

/-- `stepPlayer` on ground contact. -/
lemma stepPlayer_ground (p : Player) (j : Bool)
    (h : p.y + p.velocityY ≥ GROUND_HEIGHT - p.height) :
    stepPlayer p j = ({ p with y := GROUND_HEIGHT - p.height, velocityY := 0 }, false) := by
  simp only [stepPlayer]
  rw [if_pos h]

/-- `stepPlayer` while strictly above the ground. -/
lemma stepPlayer_air (p : Player) (j : Bool)
    (h : p.y + p.velocityY < GROUND_HEIGHT - p.height) :
    stepPlayer p j =
      ({ p with y := p.y + p.velocityY, velocityY := p.velocityY + GRAVITY }, j) := by
  simp only [stepPlayer]
  rw [if_neg (not_le.mpr h)]

/-- C1: per-frame ground clamp.  For a running session whose player has height
40, if `newY = y + velocityY` reaches `GROUND_HEIGHT - height` the post-step
player sits exactly at `y = GROUND_HEIGHT - height` with `velocityY = 0` and
the airborne flag cleared; otherwise the post-step player has `y = newY` and
`velocityY = velocityY + GRAVITY`. -/
theorem ground_clamp_c1 (s : GameState) (ts rT rW rH : ℚ)
    (hrun : s.gameOver = false) (_hh : s.player.height = 40) :
    (s.player.y + s.player.velocityY ≥ GROUND_HEIGHT - s.player.height →
      (gameLoopStep s ts rT rW rH).player.y = GROUND_HEIGHT - s.player.height ∧
      (gameLoopStep s ts rT rW rH).player.velocityY = 0 ∧
      (gameLoopStep s ts rT rW rH).isJumping = false) ∧
    (s.player.y + s.player.velocityY < GROUND_HEIGHT - s.player.height →
      (gameLoopStep s ts rT rW rH).player.y = s.player.y + s.player.velocityY ∧
      (gameLoopStep s ts rT rW rH).player.velocityY = s.player.velocityY + GRAVITY) := by
  rw [gameLoopStep_run s ts rT rW rH hrun]
  constructor
  · intro hgd
    rw [stepPlayer_ground s.player s.isJumping hgd]
    exact ⟨rfl, rfl, rfl⟩
  · intro hair
    rw [stepPlayer_air s.player s.isJumping hair]
    exact ⟨rfl, rfl⟩

/-- C1 witness: the initial grounded player stays clamped to the ground. -/
theorem ground_clamp_c1_witness :
    (gameLoopStep initialState 16 0 0 0).player.y =
      GROUND_HEIGHT - initialState.player.height ∧
    (gameLoopStep initialState 16 0 0 0).player.velocityY = 0 ∧
    (gameLoopStep initialState 16 0 0 0).isJumping = false :=
  (ground_clamp_c1 initialState 16 0 0 0 rfl rfl).1
    (by norm_num [initialState, initialPlayer, GROUND_HEIGHT])

/-- C2: the collision check runs over the start-of-frame player and obstacle
positions and sets `gameOver` exactly when some obstacle overlaps; the given
concrete player/obstacle pair collides and drives the session to game over. -/
theorem collision_c2 (s : GameState) (ts rT rW rH : ℚ) (hrun : s.gameOver = false) :
    (gameLoopStep s ts rT rW rH).gameOver =
      s.obstacles.any (fun o => checkCollision s.player o) ∧
    checkCollision { x := 50, y := 360, width := 40, height := 40, velocityY := 0 }
      { x := 60, width := 30, height := 60 } = true ∧
    (gameLoopStep
      { gameOver := false,
        player := { x := 50, y := 360, width := 40, height := 40, velocityY := 0 },
        obstacles := [{ x := 60, width := 30, height := 60 }], isJumping := false,
        score := 0, lastTimestamp := 0, obstacleSpawnTimer := 0 } ts rT rW rH).gameOver
      = true := by
  refine ⟨?_, ?_, ?_⟩
  · rw [gameLoopStep_run s ts rT rW rH hrun]
  · norm_num [checkCollision, GROUND_HEIGHT]
  · rw [gameLoopStep_run _ ts rT rW rH rfl]
    norm_num [checkCollision, GROUND_HEIGHT]

/-- C2 witness: instantiation at the initial state. -/
theorem collision_c2_witness :
    (gameLoopStep initialState 16 0 0 0).gameOver =
      initialState.obstacles.any (fun o => checkCollision initialState.player o) ∧
    checkCollision { x := 50, y := 360, width := 40, height := 40, velocityY := 0 }
      { x := 60, width := 30, height := 60 } = true ∧
    (gameLoopStep
      { gameOver := false,
        player := { x := 50, y := 360, width := 40, height := 40, velocityY := 0 },
        obstacles := [{ x := 60, width := 30, height := 60 }], isJumping := false,
        score := 0, lastTimestamp := 0, obstacleSpawnTimer := 0 } 16 0 0 0).gameOver
      = true :=
  collision_c2 initialState 16 0 0 0 rfl

/-- C3: from any game-over state, the restart key resets exactly: score 0,
empty obstacle sequence, player at (50, 360) with width 40, height 40,
`velocityY = 0`, airborne flag cleared, spawn timer 0, `gameOver = false`. -/
theorem restart_resets_c3 (s : GameState) (hover : s.gameOver = true) :
    handleKeyDown "Space" s = initialState ∧
    (handleKeyDown "Space" s).score = 0 ∧
    (handleKeyDown "Space" s).obstacles = [] ∧
    (handleKeyDown "Space" s).player.x = 50 ∧
    (handleKeyDown "Space" s).player.y = 360 ∧
    (handleKeyDown "Space" s).player.width = 40 ∧
    (handleKeyDown "Space" s).player.height = 40 ∧
    (handleKeyDown "Space" s).player.velocityY = 0 ∧
    (handleKeyDown "Space" s).isJumping = false ∧
    (handleKeyDown "Space" s).obstacleSpawnTimer = 0 ∧
    (handleKeyDown "Space" s).gameOver = false := by
  have h : handleKeyDown "Space" s = initialState := by
    rw [handleKeyDown, if_pos ⟨by simp [hover], rfl⟩]
    rfl
  rw [h]
  refine ⟨rfl, rfl, rfl, rfl, ?_, rfl, rfl, rfl, rfl, rfl, rfl⟩
  norm_num [initialState, initialPlayer, GROUND_HEIGHT]

/-- C3 witness: restart from a populated game-over state. -/
theorem restart_resets_c3_witness :
    handleKeyDown "Space"
      { gameOver := true, player := { x := 50, y := 100, width := 40, height := 40, velocityY := 7 },
        obstacles := [{ x := 120, width := 35, height := 70 }], isJumping := true,
        score := 42, lastTimestamp := 5000, obstacleSpawnTimer := 250 } = initialState :=
  (restart_resets_c3
    { gameOver := true, player := { x := 50, y := 100, width := 40, height := 40, velocityY := 7 },
      obstacles := [{ x := 120, width := 35, height := 70 }], isJumping := true,
      score := 42, lastTimestamp := 5000, obstacleSpawnTimer := 250 } rfl).1

/-- C4: single jump.  While the session is running and the player is not
airborne, a jump key (`Space` or `ArrowUp`) sets `velocityY = JUMP_FORCE` and
marks the player airborne; while airborne (session running) any key leaves the
state unchanged; while the session is over, the jump key `ArrowUp` leaves the
state unchanged (a `Space` keydown in that state is the Restart intent, not a
Jump, per `handleKeyDown`). -/
theorem single_jump_c4 (s : GameState) (code : String) :
    (s.gameOver = false → s.isJumping = false → (code = "Space" ∨ code = "ArrowUp") →
      handleKeyDown code s =
        { s with player := { s.player with velocityY := JUMP_FORCE }, isJumping := true }) ∧
    (s.gameOver = false → s.isJumping = true → handleKeyDown code s = s) ∧
    (s.gameOver = true → code = "ArrowUp" → handleKeyDown code s = s) := by
  refine ⟨?_, ?_, ?_⟩
  · intro hrun hair hcode
    rw [handleKeyDown, if_neg (by simp [hrun]), if_pos ⟨hcode, by simp [hair], by simp [hrun]⟩]
  · intro hrun hair
    rw [handleKeyDown, if_neg (by simp [hrun]), if_neg (by simp [hair])]
  · intro hover hcode
    rw [handleKeyDown, if_neg (by simp [hcode]), if_neg (by simp [hover])]

/-- C4 witness: a grounded running jump takes effect; a jump while airborne and
a jump key while game over are no-ops. -/
theorem single_jump_c4_witness :
    handleKeyDown "ArrowUp" initialState =
      { initialState with player := { initialPlayer with velocityY := JUMP_FORCE }, isJumping := true } ∧
    handleKeyDown "Space" { initialState with isJumping := true } =
      { initialState with isJumping := true } ∧
    handleKeyDown "ArrowUp" { initialState with gameOver := true, score := 9 } =
      { initialState with gameOver := true, score := 9 } :=
  ⟨(single_jump_c4 initialState "ArrowUp").1 rfl rfl (Or.inr rfl),
   (single_jump_c4 { initialState with isJumping := true } "Space").2.1 rfl rfl,
   (single_jump_c4 { initialState with gameOver := true, score := 9 } "ArrowUp").2.2 rfl rfl⟩

/-- C5: spawn decision per frame.  With the accumulated timer
`timer = obstacleSpawnTimer + deltaTime` and the freshly rolled threshold
`spawnThreshold rT`, if the timer exceeds the threshold and the distance
constraint holds then exactly one obstacle is appended at `x = canvasWidth`
with width in [30, 50) and height in [50, 100) and the step resets the timer
to 0; if the timer exceeds the threshold but the constraint fails, the list is
unchanged and the step keeps the accumulated timer. -/
theorem spawn_decision_c5 (s : GameState) (ts rT rW rH : ℚ) (hrun : s.gameOver = false)
    (hW0 : 0 ≤ rW) (hW1 : rW < 1) (hH0 : 0 ≤ rH) (hH1 : rH < 1) :
    (s.obstacleSpawnTimer + (ts - s.lastTimestamp) > spawnThreshold rT →
      canSpawnObstacle s.obstacles = true →
      spawnObstacles s.obstacles (s.obstacleSpawnTimer + (ts - s.lastTimestamp))
          (spawnThreshold rT) rW rH = s.obstacles ++ [createObstacle rW rH] ∧
      (createObstacle rW rH).x = canvasWidth ∧
      30 ≤ (createObstacle rW rH).width ∧ (createObstacle rW rH).width < 50 ∧
      50 ≤ (createObstacle rW rH).height ∧ (createObstacle rW rH).height < 100 ∧
      (gameLoopStep s ts rT rW rH).obstacleSpawnTimer = 0) ∧
    (s.obstacleSpawnTimer + (ts - s.lastTimestamp) > spawnThreshold rT →
      canSpawnObstacle s.obstacles = false →
      spawnObstacles s.obstacles (s.obstacleSpawnTimer + (ts - s.lastTimestamp))
          (spawnThreshold rT) rW rH = s.obstacles ∧
      (gameLoopStep s ts rT rW rH).obstacleSpawnTimer =
        s.obstacleSpawnTimer + (ts - s.lastTimestamp)) := by
  rw [gameLoopStep_run s ts rT rW rH hrun]
  constructor
  · intro htimer hcan
    refine ⟨by simp [spawnObstacles, htimer, hcan], rfl, ?_, ?_, ?_, ?_,
      by simp [spawnTimerAfter, htimer, hcan]⟩
    · simp only [createObstacle]
      linarith
    · simp only [createObstacle]
      linarith
    · simp only [createObstacle]
      linarith
    · simp only [createObstacle]
      linarith
  · intro htimer hcan
    exact ⟨by simp [spawnObstacles, hcan], by simp [spawnTimerAfter, hcan]⟩

/-- C5 witness: a spawn on an empty sequence, at timer 900 against threshold
500, with both size rolls at one half. -/
theorem spawn_decision_c5_witness :
    spawnObstacles initialState.obstacles
        (initialState.obstacleSpawnTimer + ((900:ℚ) - initialState.lastTimestamp))
        (spawnThreshold 0) (1/2) (1/2) =
      initialState.obstacles ++ [createObstacle (1/2) (1/2)] ∧
    (createObstacle (1/2) (1/2)).x = canvasWidth ∧
    30 ≤ (createObstacle (1/2) (1/2)).width ∧ (createObstacle (1/2) (1/2)).width < 50 ∧
    50 ≤ (createObstacle (1/2) (1/2)).height ∧ (createObstacle (1/2) (1/2)).height < 100 ∧
    (gameLoopStep initialState 900 0 (1/2) (1/2)).obstacleSpawnTimer = 0 :=
  (spawn_decision_c5 initialState 900 0 (1/2) (1/2) rfl (by norm_num) (by norm_num)
      (by norm_num) (by norm_num)).1
    (by norm_num [initialState, spawnThreshold, MIN_OBSTACLE_SPACING, MAX_OBSTACLE_SPACING])
    rfl

/-- C6: spacing invariant.  Whenever the spawn decision actually appends an
obstacle and the sequence was non-empty (its last-appended element being `o`),
the new obstacle's initial `x` (that is, `canvasWidth`) exceeds `o`'s current
`x` by strictly more than `MIN_DISTANCE_BETWEEN_OBSTACLES`; in particular the
gap is never below the minimum. -/
theorem spacing_c6 (obstacles : List Obstacle) (timer thr rW rH : ℚ)
    (l : List Obstacle) (o : Obstacle) (hlast : obstacles = l ++ [o])
    (hspawn : spawnObstacles obstacles timer thr rW rH ≠ obstacles) :
    MIN_DISTANCE_BETWEEN_OBSTACLES < (createObstacle rW rH).x - o.x ∧
    ¬((createObstacle rW rH).x - o.x < MIN_DISTANCE_BETWEEN_OBSTACLES) := by
  have hcan : canSpawnObstacle obstacles = true := by
    by_contra hcan
    refine hspawn ?_
    rw [spawnObstacles, if_neg (fun hc => hcan hc.2)]
  rw [hlast, canSpawnObstacle, List.getLast?_concat] at hcan
  have hox : o.x < canvasWidth - MIN_DISTANCE_BETWEEN_OBSTACLES := by
    simpa using hcan
  constructor
  · simp only [createObstacle]
    linarith
  · simp only [createObstacle, not_lt]
    linarith

/-- C6 witness: a spawn past an obstacle at `x = 100` keeps the minimum gap. -/
theorem spacing_c6_witness :
    MIN_DISTANCE_BETWEEN_OBSTACLES <
      (createObstacle 0 0).x - ({ x := 100, width := 30, height := 60 } : Obstacle).x ∧
    ¬((createObstacle 0 0).x - ({ x := 100, width := 30, height := 60 } : Obstacle).x <
      MIN_DISTANCE_BETWEEN_OBSTACLES) :=
  spacing_c6 [{ x := 100, width := 30, height := 60 }] 900 500 0 0 []
    { x := 100, width := 30, height := 60 } rfl
    (by
      rw [spawnObstacles, if_pos]
      · intro h
        simpa using congrArg List.length h
      · exact ⟨by norm_num, by norm_num [canSpawnObstacle, canvasWidth,
          MIN_DISTANCE_BETWEEN_OBSTACLES]⟩)

/-- C7: obstacle advance and culling.  On a running frame, the post-step
obstacle sequence is the order-preserving filter (keeping exactly the
obstacles with `x + width > 0`) of the spawn-phase sequence with every
obstacle's `x` decreased by `OBSTACLE_SPEED`; consequently every surviving
obstacle satisfies `x + width > 0` and any obstacle with `x + width ≤ 0` is
absent from the post-step sequence. -/
theorem advance_cull_c7 (s : GameState) (ts rT rW rH : ℚ) (hrun : s.gameOver = false) :
    (gameLoopStep s ts rT rW rH).obstacles =
      ((spawnObstacles s.obstacles (s.obstacleSpawnTimer + (ts - s.lastTimestamp))
        (spawnThreshold rT) rW rH).map moveObstacle).filter (fun o => obstacleAlive o) ∧
    (∀ o : Obstacle, (moveObstacle o).x = o.x - OBSTACLE_SPEED ∧
      (moveObstacle o).width = o.width) ∧
    (∀ o ∈ (gameLoopStep s ts rT rW rH).obstacles, 0 < o.x + o.width) ∧
    (∀ o : Obstacle, o.x + o.width ≤ 0 → o ∉ (gameLoopStep s ts rT rW rH).obstacles) := by
  rw [gameLoopStep_run s ts rT rW rH hrun]
  refine ⟨rfl, fun o => ⟨rfl, rfl⟩, ?_, ?_⟩
  · intro o ho
    have := (List.mem_filter.mp ho).2
    simpa [obstacleAlive] using this
  · intro o hle hmem
    have := (List.mem_filter.mp hmem).2
    rw [obstacleAlive] at this
    exact absurd (of_decide_eq_true this) (not_lt.mpr hle)

/-- C7 witness: an obstacle at `x = 2` with width 3 advances to `x = -3` and is
culled, while one at `x = 300` survives at `x = 295`. -/
theorem advance_cull_c7_witness :
    (gameLoopStep { initialState with
        obstacles := [{ x := 2, width := 3, height := 60 }, { x := 300, width := 30, height := 60 }] }
      16 0 0 0).obstacles =
      ((spawnObstacles ({ initialState with
          obstacles := [{ x := 2, width := 3, height := 60 }, { x := 300, width := 30, height := 60 }] }
            : GameState).obstacles
        (({ initialState with
          obstacles := [{ x := 2, width := 3, height := 60 }, { x := 300, width := 30, height := 60 }] }
            : GameState).obstacleSpawnTimer +
          ((16:ℚ) - ({ initialState with
            obstacles := [{ x := 2, width := 3, height := 60 }, { x := 300, width := 30, height := 60 }] }
              : GameState).lastTimestamp))
        (spawnThreshold 0) 0 0).map moveObstacle).filter (fun o => obstacleAlive o) :=
  (advance_cull_c7 { initialState with
      obstacles := [{ x := 2, width := 3, height := 60 }, { x := 300, width := 30, height := 60 }] }
    16 0 0 0 rfl).1

/-- C8: score accrual.  The step is the identity while the session is over (the
hosting effect schedules no frame), so the score is constant in game over; on a
running frame with `deltaTime = 0` the score is unchanged, and with
`deltaTime > 0` it increases by exactly `⌊deltaTime / 100⌋ ≥ 0`, hence is
non-decreasing.  (`deltaTime < 0` cannot arise: animation-frame timestamps are
non-decreasing and `lastTimestamp` starts at 0.) -/
theorem score_monotone_c8 (s : GameState) (ts rT rW rH : ℚ) :
    (s.gameOver = true → gameLoopStep s ts rT rW rH = s) ∧
    (s.gameOver = false → ts - s.lastTimestamp = 0 →
      (gameLoopStep s ts rT rW rH).score = s.score) ∧
    (s.gameOver = false → 0 < ts - s.lastTimestamp →
      (gameLoopStep s ts rT rW rH).score = s.score + ⌊(ts - s.lastTimestamp) / 100⌋ ∧
      s.score ≤ (gameLoopStep s ts rT rW rH).score) := by
  refine ⟨?_, ?_, ?_⟩
  · intro hover
    rw [gameLoopStep, if_pos (by simp [hover])]
  · intro hrun hdt
    rw [gameLoopStep_run s ts rT rW rH hrun]
    simp [hdt]
  · intro hrun hdt
    rw [gameLoopStep_run s ts rT rW rH hrun]
    have hne : ¬(ts - s.lastTimestamp = 0) := ne_of_gt hdt
    have hfl : (0:ℤ) ≤ ⌊(ts - s.lastTimestamp) / 100⌋ := by
      refine Int.le_floor.mpr ?_
      push_cast
      positivity
    constructor
    · simp [hne]
    · simp only [hne, if_false]
      omega

/-- C8 witness: the score is constant in game over, unchanged on a zero-delta
frame, and increases by 1 on a 150 ms frame. -/
theorem score_monotone_c8_witness :
    gameLoopStep { initialState with gameOver := true, score := 7 } 16 0 0 0 =
      { initialState with gameOver := true, score := 7 } ∧
    (gameLoopStep initialState 0 0 0 0).score = initialState.score ∧
    (gameLoopStep initialState 150 0 0 0).score =
      initialState.score + ⌊((150:ℚ) - initialState.lastTimestamp) / 100⌋ :=
  ⟨(score_monotone_c8 { initialState with gameOver := true, score := 7 } 16 0 0 0).1 rfl,
   (score_monotone_c8 initialState 0 0 0 0).2.1 rfl (by norm_num [initialState]),
   ((score_monotone_c8 initialState 150 0 0 0).2.2 rfl (by norm_num [initialState])).1⟩

/-- C9 counterexample: the claim says the first frame of a session contributes
nothing to the score or the spawn timer whatever its timestamp.  The source
initializes `lastTimestamp = 0`, so the first frame's `deltaTime` is the raw
timestamp: at timestamp 200 the first frame adds 2 to the score and leaves the
spawn timer at 200. -/
theorem first_frame_c9_counterexample :
    (gameLoopStep initialState 200 0 0 0).score ≠ 0 ∧
    (gameLoopStep initialState 200 0 0 0).obstacleSpawnTimer ≠ 0 := by
  rw [gameLoopStep_run initialState 200 0 0 0 rfl]
  constructor
  · norm_num [initialState]
  · norm_num [initialState, spawnTimerAfter, spawnThreshold, canSpawnObstacle,
      MIN_OBSTACLE_SPACING, MAX_OBSTACLE_SPACING]

/-- C9 amended: on the first frame of a session, `deltaTime` equals the raw
timestamp (there is no prior timestamp and `lastTimestamp` is initialized to
0), so the first frame contributes `⌊timestamp / 100⌋` to the score and, as
long as the timestamp does not exceed `MIN_OBSTACLE_SPACING` (so no spawn can
fire), the full timestamp to the spawn timer; it contributes nothing only when
the timestamp is below those bounds, not for every timestamp. -/
theorem first_frame_c9_amended (ts rT rW rH : ℚ) (hT : 0 ≤ rT) :
    (gameLoopStep initialState ts rT rW rH).score = ⌊ts / 100⌋ ∧
    (ts ≤ MIN_OBSTACLE_SPACING →
      (gameLoopStep initialState ts rT rW rH).obstacleSpawnTimer = ts) := by
  rw [gameLoopStep_run initialState ts rT rW rH rfl]
  constructor
  · show (if ts - initialState.lastTimestamp = 0 then initialState.score
      else initialState.score + ⌊(ts - initialState.lastTimestamp) / 100⌋) = ⌊ts / 100⌋
    by_cases h : ts = 0
    · simp [initialState, h]
    · simp [initialState, h]
  · intro hts
    have hthr : ¬(spawnThreshold rT < ts) := by
      rw [MIN_OBSTACLE_SPACING] at hts
      rw [spawnThreshold, MIN_OBSTACLE_SPACING, MAX_OBSTACLE_SPACING]
      refine not_lt.mpr ?_
      linarith
    simp [spawnTimerAfter, initialState, hthr]

/-- C9 amended witness: at first-frame timestamp 200 the score becomes 2 and
the spawn timer becomes 200. -/
theorem first_frame_c9_amended_witness :
    (gameLoopStep initialState 200 0 0 0).score = ⌊(200:ℚ) / 100⌋ ∧
    (gameLoopStep initialState 200 0 0 0).obstacleSpawnTimer = 200 :=
  ⟨(first_frame_c9_amended 200 0 0 0 le_rfl).1,
   (first_frame_c9_amended 200 0 0 0 le_rfl).2
     (by norm_num [MIN_OBSTACLE_SPACING])⟩

/-- C10: restart key asymmetry.  While the session is over, a `Space` keydown
triggers the restart (yielding the reset state), and a keydown with any other
code — `ArrowUp` included — leaves the entire session state unchanged. -/
theorem restart_key_c10 (s : GameState) (hover : s.gameOver = true) :
    handleKeyDown "Space" s = resetGame s ∧
    (∀ code : String, code ≠ "Space" → handleKeyDown code s = s) := by
  constructor
  · rw [handleKeyDown, if_pos (show s.gameOver = true ∧ "Space" = "Space" from ⟨hover, rfl⟩)]
  · intro code hcode
    rw [handleKeyDown, if_neg (fun hc => hcode hc.2), if_neg (by simp [hover])]

/-- C10 witness: in a populated game-over state, `Space` resets and `ArrowUp`
is a no-op. -/
theorem restart_key_c10_witness :
    handleKeyDown "Space" { initialState with
      gameOver := true, score := 3, obstacles := [{ x := 120, width := 35, height := 70 }] } =
      resetGame { initialState with
        gameOver := true, score := 3, obstacles := [{ x := 120, width := 35, height := 70 }] } ∧
    handleKeyDown "ArrowUp" { initialState with
      gameOver := true, score := 3, obstacles := [{ x := 120, width := 35, height := 70 }] } =
      { initialState with
        gameOver := true, score := 3, obstacles := [{ x := 120, width := 35, height := 70 }] } :=
  ⟨(restart_key_c10 { initialState with
      gameOver := true, score := 3, obstacles := [{ x := 120, width := 35, height := 70 }] }
      rfl).1,
   (restart_key_c10 { initialState with
      gameOver := true, score := 3, obstacles := [{ x := 120, width := 35, height := 70 }] }
      rfl).2 "ArrowUp" (by decide)⟩

end Runner
